import Mathlib

/-!
Shallow embedding of the research portal's financial-spreadsheet renderer
(`src/lib/excel-generator.ts`), its utility functions (`src/lib/utils.ts`),
and the `/api/download-excel` route handler
(`src/app/api/download-excel/route.ts`), together with theorems checking the
specification's claims about them.

JavaScript numbers are modelled as exact rationals (`ℚ`); the JavaScript
value domain relevant here (`undefined`, `null`, `NaN`, finite numbers) is
modelled by the inductive type `JsNum`.
-/

namespace ResearchPortal

/-- TypeScript `type ConfidenceLevel = 'high' | 'medium' | 'low' | 'missing'`
(`src/types/index.ts`). -/
inductive ConfidenceLevel where
  | high
  | medium
  | low
  | missing
  deriving DecidableEq

/-- TypeScript `type LineItemCategory` — the fixed set of category strings
(`src/types/index.ts`). -/
inductive LineItemCategory where
  | revenue
  | cost
  | grossProfit
  | operatingExpense
  | operatingIncome
  | nonOperating
  | pretaxIncome
  | tax
  | netIncome
  | perShare
  | other
  deriving DecidableEq, Fintype

/-- The literal string carried by each `LineItemCategory` value. -/
def catStr : LineItemCategory → String
  | .revenue => "Revenue"
  | .cost => "Cost"
  | .grossProfit => "Gross Profit"
  | .operatingExpense => "Operating Expense"
  | .operatingIncome => "Operating Income"
  | .nonOperating => "Non-Operating"
  | .pretaxIncome => "Pre-tax Income"
  | .tax => "Tax"
  | .netIncome => "Net Income"
  | .perShare => "Per Share"
  | .other => "Other"

/-- The JavaScript value domain for a nullable numeric slot:
`undefined`, `null`, `NaN`, or a finite number (modelled exactly as `ℚ`). -/
inductive JsNum where
  | undef
  | jsnull
  | nan
  | num (q : ℚ)
  deriving DecidableEq

/-- Embeds a `number | null` value (the declared TypeScript type of
`calcYoYGrowth`'s arguments) into the JavaScript value domain. -/
def jsOfOpt : Option ℚ → JsNum
  | none => .jsnull
  | some v => .num v

/-- Structure `FinancialLineItem` (`src/types/index.ts`); `values` is the
`Record<string, number | null>` mapping period labels to nullable values,
modelled as an association list so that an absent key (JavaScript
`undefined`) is distinguishable from a present-but-`null` entry. -/
structure FinancialLineItem where
  label : String
  standardLabel : String
  category : LineItemCategory
  isTotal : Bool
  values : List (String × Option ℚ)
  confidence : ConfidenceLevel
  notes : String
  deriving DecidableEq

/-- Structure `FinancialExtractionResult` (`src/types/index.ts`). -/
structure FinancialExtractionResult where
  companyName : String
  reportType : String
  documentTitle : String
  periods : List String
  currency : String
  unit : String
  lineItems : List FinancialLineItem
  extractionNotes : String
  deriving DecidableEq

/-- JavaScript `s.toLowerCase()` (ASCII case mapping suffices for the
substrings compared by `categoryColor`). -/
def jsToLower (s : String) : String := ⟨s.data.map Char.toLower⟩

/-- JavaScript `s.toUpperCase()` (ASCII case mapping suffices for the
currency codes in the lookup table). -/
def jsToUpper (s : String) : String := ⟨s.data.map Char.toUpper⟩

/-- JavaScript property read `item.values[period]`:
absent key → `undefined`, present `null` → `null`, otherwise the number. -/
def jsGet (vals : List (String × Option ℚ)) (k : String) : JsNum :=
  match vals.lookup k with
  | none => .undef
  | some none => .jsnull
  | some (some v) => .num v

-- ─── src/lib/utils.ts ───────────────────────────────────────────────────────

/-- The fixed `symbols` lookup table inside `getCurrencySymbol`
(`src/lib/utils.ts`). -/
def currencySymbols : List (String × String) :=
  [("USD", "$"), ("EUR", "€"), ("GBP", "£"), ("JPY", "¥"), ("INR", "₹"),
   ("CAD", "C$"), ("AUD", "A$"), ("CHF", "Fr"), ("CNY", "¥"), ("KRW", "₩")]

/-- Function `getCurrencySymbol` (`src/lib/utils.ts`):
`symbols[currency?.toUpperCase()] ?? currency + ' '`. -/
def getCurrencySymbol (currency : String) : String :=
  match currencySymbols.lookup (jsToUpper currency) with
  | some s => s
  | none => currency ++ " "

/-- Function `calcYoYGrowth` (`src/lib/utils.ts`):
`if (current === null || prior === null || prior === 0) return null;
return ((current - prior) / Math.abs(prior)) * 100`.
The arithmetic case propagates `NaN` when an operand is `undefined` or
`NaN` (neither compares `===` to `null` or `0`). -/
def calcYoYGrowth (current prior : JsNum) : JsNum :=
  if current = .jsnull ∨ prior = .jsnull ∨ prior = .num 0 then .jsnull
  else
    match current, prior with
    | .num c, .num p => .num ((c - p) / |p| * 100)
    | _, _ => .nan

-- ─── src/lib/excel-generator.ts: color palette and category colors ──────────

/-- The category-color fields of the `COLORS` constant
(`src/lib/excel-generator.ts`). -/
structure Palette where
  catRevenue : String
  catCost : String
  catProfit : String
  catExpense : String
  catIncome : String
  catTax : String
  catOther : String
  deriving DecidableEq

/-- The `COLORS` constant (category-color fields,
`src/lib/excel-generator.ts`). -/
def COLORS : Palette :=
  { catRevenue := "FFDBEAFE"
    catCost := "FFFDE8D8"
    catProfit := "FFD1FAE5"
    catExpense := "FFFEF3C7"
    catIncome := "FFE0E7FF"
    catTax := "FFF3F4F6"
    catOther := "FFF9FAFB" }

/-- JavaScript `s.includes(sub)`: `sub` occurs as a contiguous substring
of `s`. -/
def jsIncludes (s sub : String) : Bool :=
  decide (sub.toList <:+: s.toList)

/-- Function `categoryColor` (`src/lib/excel-generator.ts`): a chain of
case-insensitive substring tests, first match wins. -/
def categoryColor (category : String) : String :=
  if jsIncludes (jsToLower category) "revenue" then COLORS.catRevenue
  else if jsIncludes (jsToLower category) "cost" then COLORS.catCost
  else if jsIncludes (jsToLower category) "gross" then COLORS.catProfit
  else if jsIncludes (jsToLower category) "expense" then COLORS.catExpense
  else if jsIncludes (jsToLower category) "income" || jsIncludes (jsToLower category) "ebit" then
    COLORS.catIncome
  else if jsIncludes (jsToLower category) "tax" || jsIncludes (jsToLower category) "net" then
    COLORS.catTax
  else COLORS.catOther

-- ─── Theorems: C1, C5, C8 ───────────────────────────────────────────────────

/-- C1: for every pair of nullable numeric values, `calcYoYGrowth` returns
`(current - prior) / |prior| * 100` when both sides are non-null and the
prior is nonzero, returns null whenever either side is null or the prior is
zero, and in particular returns 0 on equal nonzero arguments. -/
theorem calcYoYGrowth_spec (current prior : Option ℚ) :
    (∀ c p : ℚ, current = some c → prior = some p → p ≠ 0 →
        calcYoYGrowth (jsOfOpt current) (jsOfOpt prior) = .num ((c - p) / |p| * 100))
    ∧ (current = none ∨ prior = none ∨ prior = some 0 →
        calcYoYGrowth (jsOfOpt current) (jsOfOpt prior) = .jsnull)
    ∧ (∀ x : ℚ, x ≠ 0 → calcYoYGrowth (.num x) (.num x) = .num 0) := by
  refine ⟨?_, ?_, ?_⟩
  · rintro c p rfl rfl hp
    simp [jsOfOpt, calcYoYGrowth, hp]
  · rintro (rfl | rfl | rfl) <;> simp [jsOfOpt, calcYoYGrowth]
  · intro x hx
    simp [calcYoYGrowth, hx]

theorem calcYoYGrowth_spec_witness :
    calcYoYGrowth (.num 6) (.num 4) = .num 50
    ∧ calcYoYGrowth (.num 1) .jsnull = .jsnull
    ∧ calcYoYGrowth (.num 3) (.num 3) = .num 0 := by
  refine ⟨?_, ?_, ?_⟩
  · have h := (calcYoYGrowth_spec (some 6) (some 4)).1 6 4 rfl rfl (by norm_num)
    simp only [jsOfOpt] at h
    have h2 : ((6 : ℚ) - 4) / |(4 : ℚ)| * 100 = 50 := by norm_num
    rw [h, h2]
  · have h := (calcYoYGrowth_spec (some 1) none).2.1 (Or.inr (Or.inl rfl))
    simpa [jsOfOpt] using h
  · exact (calcYoYGrowth_spec (some 3) (some 3)).2.2 3 (by norm_num)

/-- C5: `categoryColor` applies its case-insensitive substring tests in the
fixed order revenue, cost, gross, expense, income/ebit, tax/net, first match
winning, with a neutral default; in particular a category containing
"income" that matched none of the earlier tests gets the income color even
if it also contains "net" or "tax" (e.g. `"Net Income"`). -/
theorem categoryColor_spec (category : String) :
    (jsIncludes (jsToLower category) "revenue" = true →
        categoryColor category = COLORS.catRevenue)
    ∧ (jsIncludes (jsToLower category) "revenue" = false →
        jsIncludes (jsToLower category) "cost" = true →
        categoryColor category = COLORS.catCost)
    ∧ (jsIncludes (jsToLower category) "revenue" = false →
        jsIncludes (jsToLower category) "cost" = false →
        jsIncludes (jsToLower category) "gross" = true →
        categoryColor category = COLORS.catProfit)
    ∧ (jsIncludes (jsToLower category) "revenue" = false →
        jsIncludes (jsToLower category) "cost" = false →
        jsIncludes (jsToLower category) "gross" = false →
        jsIncludes (jsToLower category) "expense" = true →
        categoryColor category = COLORS.catExpense)
    ∧ (jsIncludes (jsToLower category) "revenue" = false →
        jsIncludes (jsToLower category) "cost" = false →
        jsIncludes (jsToLower category) "gross" = false →
        jsIncludes (jsToLower category) "expense" = false →
        (jsIncludes (jsToLower category) "income" = true ∨
          jsIncludes (jsToLower category) "ebit" = true) →
        categoryColor category = COLORS.catIncome)
    ∧ (jsIncludes (jsToLower category) "revenue" = false →
        jsIncludes (jsToLower category) "cost" = false →
        jsIncludes (jsToLower category) "gross" = false →
        jsIncludes (jsToLower category) "expense" = false →
        jsIncludes (jsToLower category) "income" = false →
        jsIncludes (jsToLower category) "ebit" = false →
        (jsIncludes (jsToLower category) "tax" = true ∨
          jsIncludes (jsToLower category) "net" = true) →
        categoryColor category = COLORS.catTax)
    ∧ (jsIncludes (jsToLower category) "revenue" = false →
        jsIncludes (jsToLower category) "cost" = false →
        jsIncludes (jsToLower category) "gross" = false →
        jsIncludes (jsToLower category) "expense" = false →
        jsIncludes (jsToLower category) "income" = false →
        jsIncludes (jsToLower category) "ebit" = false →
        jsIncludes (jsToLower category) "tax" = false →
        jsIncludes (jsToLower category) "net" = false →
        categoryColor category = COLORS.catOther)
    ∧ categoryColor ("Net Income") = COLORS.catIncome := by
  refine ⟨?_, ?_, ?_, ?_, ?_, ?_, ?_, ?_⟩
  · intro h1; simp [categoryColor, h1]
  · intro h1 h2; simp [categoryColor, h1, h2]
  · intro h1 h2 h3; simp [categoryColor, h1, h2, h3]
  · intro h1 h2 h3 h4; simp [categoryColor, h1, h2, h3, h4]
  · intro h1 h2 h3 h4 h5
    rcases h5 with h5 | h5 <;> simp [categoryColor, h1, h2, h3, h4, h5]
  · intro h1 h2 h3 h4 h5 h6 h7
    rcases h7 with h7 | h7 <;> simp [categoryColor, h1, h2, h3, h4, h5, h6, h7]
  · intro h1 h2 h3 h4 h5 h6 h7 h8
    simp [categoryColor, h1, h2, h3, h4, h5, h6, h7, h8]
  · decide

theorem categoryColor_spec_witness :
    categoryColor ("Revenue") = COLORS.catRevenue
    ∧ categoryColor ("Tax") = COLORS.catTax := by
  constructor
  · exact (categoryColor_spec ("Revenue")).1 (by decide)
  · exact (categoryColor_spec ("Tax")).2.2.2.2.2.1 (by decide) (by decide) (by decide)
      (by decide) (by decide) (by decide) (Or.inl (by decide))

/-- C8: `getCurrencySymbol` resolves the uppercased code through the fixed
table and otherwise returns the code followed by a single trailing space;
in particular `getCurrencySymbol ("XYZ") = "XYZ "`. -/
theorem getCurrencySymbol_spec (currency : String) :
    (∀ s, currencySymbols.lookup (jsToUpper currency) = some s →
        getCurrencySymbol currency = s)
    ∧ (currencySymbols.lookup (jsToUpper currency) = none →
        getCurrencySymbol currency = currency ++ " ")
    ∧ getCurrencySymbol ("XYZ") = "XYZ " := by
  refine ⟨?_, ?_, by decide⟩
  · intro s hs; simp [getCurrencySymbol, hs]
  · intro hn; simp [getCurrencySymbol, hn]

theorem getCurrencySymbol_spec_witness :
    getCurrencySymbol ("usd") = "$" ∧ getCurrencySymbol ("xyz") = "xyz " := by
  constructor
  · exact (getCurrencySymbol_spec ("usd")).1 ("$") (by decide)
  · exact (getCurrencySymbol_spec ("xyz")).2.1 (by decide)

-- ─── src/lib/excel-generator.ts: cell contents ──────────────────────────────

/-- The value written into a worksheet cell: a string, a finite number, the
`NaN` number, or nothing at all (the cell stays empty, as happens when
JavaScript assigns `undefined` to `cell.value`). -/
inductive CellValue where
  | str (s : String)
  | num (q : ℚ)
  | numNaN
  | empty
  deriving DecidableEq

/-- Sheet 1 period-value cell (`addIncomeStatementSheet`):
`const val = item.values[period]; if (val === null || val === undefined)
cell.value = 'N/A' else cell.value = val`. -/
def sheet1ValueCell (item : FinancialLineItem) (period : String) : CellValue :=
  match jsGet item.values period with
  | .jsnull => .str ("N/A")
  | .undef => .str ("N/A")
  | .num v => .num v
  | .nan => .numNaN

/-- Sheet 1 year-over-year growth cell (`addIncomeStatementSheet`):
`const growth = calcYoYGrowth(cur, prior); if (growth === null)
growthCell.value = 'N/A' else growthCell.value = growth / 100`
(`NaN / 100` is `NaN`). -/
def growthCell (item : FinancialLineItem) (cur prior : String) : CellValue :=
  match calcYoYGrowth (jsGet item.values cur) (jsGet item.values prior) with
  | .jsnull => .str ("N/A")
  | .num g => .num (g / 100)
  | _ => .numNaN

/-- The `confLabels` record inside `addIncomeStatementSheet`. -/
def confLabel : ConfidenceLevel → String
  | .high => "High"
  | .medium => "Medium"
  | .low => "Low"
  | .missing => "Missing"

/-- JavaScript `s || ''` on a string (an empty string is falsy). -/
def jsOrEmpty (s : String) : String := if s = "" then "" else s

/-- The cells of one Sheet 1 data row, in column order: blank category cell,
standard label, one value cell per period, one growth cell per adjacent
period pair, the confidence label, and the notes
(`addIncomeStatementSheet`). -/
def incomeDataRowCells (periods : List String) (item : FinancialLineItem) :
    List CellValue :=
  [CellValue.str (""), CellValue.str item.standardLabel]
  ++ periods.map (sheet1ValueCell item)
  ++ (periods.zip periods.tail).map (fun pp => growthCell item pp.1 pp.2)
  ++ [CellValue.str (confLabel item.confidence),
      CellValue.str (jsOrEmpty item.notes)]

/-- The literal string of each `ConfidenceLevel` value. -/
def confStr : ConfidenceLevel → String
  | .high => "high"
  | .medium => "medium"
  | .low => "low"
  | .missing => "missing"

/-- Sheet 2 period-value cell (`addRawDataSheet`):
`row.getCell(5 + pi).value = val === null ? 'N/A' : val`.
An absent key gives `val === undefined`, which is not `=== null`, so the
cell is assigned `undefined` and stays empty. -/
def rawValueCell (item : FinancialLineItem) (period : String) : CellValue :=
  match jsGet item.values period with
  | .jsnull => .str ("N/A")
  | .num v => .num v
  | .undef => .empty
  | .nan => .numNaN

/-- The cells of one Sheet 2 row, in column order: category, original label,
standard label, uppercased confidence, one value cell per period, notes
(`addRawDataSheet`). -/
def rawRowCells (periods : List String) (item : FinancialLineItem) :
    List CellValue :=
  [CellValue.str (catStr item.category), CellValue.str item.label,
   CellValue.str item.standardLabel,
   CellValue.str (jsToUpper (confStr item.confidence))]
  ++ periods.map (rawValueCell item)
  ++ [CellValue.str (jsOrEmpty item.notes)]

/-- All Sheet 2 data rows: one per line item, in order (`addRawDataSheet`). -/
def rawRows (data : FinancialExtractionResult) : List (List CellValue) :=
  data.lineItems.map (rawRowCells data.periods)

-- ─── src/lib/excel-generator.ts: Sheet 3 (Extraction Report) ────────────────

/-- JavaScript `s || fallback` on a string (an empty string is falsy). -/
def jsOrStr (s fallback : String) : String := if s = "" then fallback else s

/-- The number of line items at a given confidence level, as computed by the
`data.lineItems.filter(i => i.confidence === '...').length` expressions in
`addNotesSheet`. -/
def confCount (data : FinancialExtractionResult) (c : ConfidenceLevel) : Nat :=
  (data.lineItems.filter fun i => decide (i.confidence = c)).length

/-- The `metadata` key/value rows of the Extraction Report sheet
(`addNotesSheet`); `now` stands for `new Date().toISOString()`. -/
def notesMetadata (now : String) (data : FinancialExtractionResult) :
    List (String × String) :=
  [("Company", data.companyName),
   ("Document Type", data.reportType),
   ("Document Title", jsOrStr data.documentTitle ("Not specified")),
   ("Periods Extracted", String.intercalate (", ") data.periods),
   ("Currency", data.currency),
   ("Units", data.unit),
   ("Total Line Items", toString data.lineItems.length),
   ("High Confidence", toString (confCount data .high)),
   ("Medium Confidence", toString (confCount data .medium)),
   ("Low Confidence", toString (confCount data .low)),
   ("Missing Data", toString (confCount data .missing)),
   ("Extraction Notes", data.extractionNotes),
   ("Generated", now),
   ("Tool", "AI Research Portal — Financial Statement Extractor")]

/-- Each line item is counted by exactly one of the four confidence
filters. -/
theorem confCount_filter_sum (l : List FinancialLineItem) :
    (l.filter fun i => decide (i.confidence = ConfidenceLevel.high)).length
    + (l.filter fun i => decide (i.confidence = ConfidenceLevel.medium)).length
    + (l.filter fun i => decide (i.confidence = ConfidenceLevel.low)).length
    + (l.filter fun i => decide (i.confidence = ConfidenceLevel.missing)).length
    = l.length := by
  induction l with
  | nil => rfl
  | cons x xs ih =>
    cases hx : x.confidence <;> simp [List.filter_cons, hx] <;> omega

-- ─── Theorems: C2, C3, C9 ───────────────────────────────────────────────────

/-- C2: on the Extraction Report sheet, the four confidence counts are the
values written next to the four count keys, and they sum exactly to the
total line-item count written on the same sheet. -/
theorem extraction_report_counts (now : String)
    (data : FinancialExtractionResult) :
    (notesMetadata now data)[6]?
        = some ("Total Line Items", toString data.lineItems.length)
    ∧ (notesMetadata now data)[7]?
        = some ("High Confidence", toString (confCount data .high))
    ∧ (notesMetadata now data)[8]?
        = some ("Medium Confidence", toString (confCount data .medium))
    ∧ (notesMetadata now data)[9]?
        = some ("Low Confidence", toString (confCount data .low))
    ∧ (notesMetadata now data)[10]?
        = some ("Missing Data", toString (confCount data .missing))
    ∧ confCount data .high + confCount data .medium + confCount data .low
        + confCount data .missing = data.lineItems.length := by
  refine ⟨rfl, rfl, rfl, rfl, rfl, ?_⟩
  exact confCount_filter_sum data.lineItems

/-- Indexing into the middle block of a three-part concatenation. -/
theorem getElem?_append_middle {α : Type} (l₁ l₂ l₃ : List α) (i : Nat)
    (h : i < l₂.length) :
    (l₁ ++ (l₂ ++ l₃))[l₁.length + i]? = l₂[i]? := by
  rw [List.getElem?_append_right (by omega)]
  have h2 : l₁.length + i - l₁.length = i := by omega
  rw [h2, List.getElem?_append_left h]

/-- The Sheet 1 value cell for period `i` sits at row-list index `2 + i`. -/
theorem incomeDataRowCells_value (periods : List String)
    (item : FinancialLineItem) (i : Nat) (hi : i < periods.length) :
    (incomeDataRowCells periods item)[2 + i]?
      = some (sheet1ValueCell item periods[i]) := by
  unfold incomeDataRowCells
  rw [List.append_assoc, List.append_assoc]
  have h2 : ([CellValue.str (""), CellValue.str item.standardLabel] : List CellValue).length = 2 := rfl
  rw [show (2 + i) = ([CellValue.str (""), CellValue.str item.standardLabel] : List CellValue).length + i from by rw [h2]]
  rw [getElem?_append_middle _ _ _ i (by simpa using hi)]
  rw [List.getElem?_map, List.getElem?_eq_getElem hi]
  rfl

/-- The Sheet 2 value cell for period `i` sits at row-list index `4 + i`. -/
theorem rawRowCells_value (periods : List String)
    (item : FinancialLineItem) (i : Nat) (hi : i < periods.length) :
    (rawRowCells periods item)[4 + i]?
      = some (rawValueCell item periods[i]) := by
  unfold rawRowCells
  rw [List.append_assoc]
  have h4 : ([CellValue.str (catStr item.category), CellValue.str item.label,
      CellValue.str item.standardLabel,
      CellValue.str (jsToUpper (confStr item.confidence))] : List CellValue).length = 4 := rfl
  rw [show (4 + i) = ([CellValue.str (catStr item.category), CellValue.str item.label,
      CellValue.str item.standardLabel,
      CellValue.str (jsToUpper (confStr item.confidence))] : List CellValue).length + i from by rw [h4]]
  rw [getElem?_append_middle _ _ _ i (by simpa using hi)]
  rw [List.getElem?_map, List.getElem?_eq_getElem hi]
  rfl

/-- C3 (amended): a present-but-null value renders as the literal "N/A"
cell in both Sheet 1 and Sheet 2; an absent key renders as "N/A" in Sheet 1
but leaves the Sheet 2 cell empty; a numeric value renders as that number
in both sheets. -/
theorem missing_value_rendering (periods : List String)
    (item : FinancialLineItem) (i : Nat) (hi : i < periods.length) :
    (item.values.lookup periods[i] = some none →
        (incomeDataRowCells periods item)[2 + i]? = some (CellValue.str ("N/A"))
        ∧ (rawRowCells periods item)[4 + i]? = some (CellValue.str ("N/A")))
    ∧ (item.values.lookup periods[i] = none →
        (incomeDataRowCells periods item)[2 + i]? = some (CellValue.str ("N/A"))
        ∧ (rawRowCells periods item)[4 + i]? = some CellValue.empty)
    ∧ (∀ v : ℚ, item.values.lookup periods[i] = some (some v) →
        (incomeDataRowCells periods item)[2 + i]? = some (CellValue.num v)
        ∧ (rawRowCells periods item)[4 + i]? = some (CellValue.num v)) := by
  refine ⟨?_, ?_, ?_⟩
  · intro h
    rw [incomeDataRowCells_value periods item i hi,
      rawRowCells_value periods item i hi]
    constructor <;> simp [sheet1ValueCell, rawValueCell, jsGet, h]
  · intro h
    rw [incomeDataRowCells_value periods item i hi,
      rawRowCells_value periods item i hi]
    constructor <;> simp [sheet1ValueCell, rawValueCell, jsGet, h]
  · intro v h
    rw [incomeDataRowCells_value periods item i hi,
      rawRowCells_value periods item i hi]
    constructor <;> simp [sheet1ValueCell, rawValueCell, jsGet, h]

/-- A line item whose `values` record lacks the key for a declared period. -/
def c3Item : FinancialLineItem :=
  { label := "Revenue"
    standardLabel := "Revenue"
    category := .revenue
    isTotal := false
    values := []
    confidence := .missing
    notes := "" }

/-- C3 counterexample: with period `"FY2023"` absent from the item's
`values` record, the Raw Data sheet writes an empty cell, not the "N/A"
marker the claim requires for both sheets. -/
theorem missing_value_rendering_counterexample :
    (rawRowCells ["FY2023"] c3Item)[4]? = some CellValue.empty
    ∧ some CellValue.empty ≠ some (CellValue.str ("N/A")) := by
  constructor
  · rfl
  · decide

theorem missing_value_rendering_witness :
    0 < (["FY2023"] : List String).length
    ∧ (incomeDataRowCells ["FY2023"]
        { c3Item with values := [("FY2023", none)] })[2]?
        = some (CellValue.str ("N/A"))
    ∧ (rawRowCells ["FY2023"]
        { c3Item with values := [("FY2023", none)] })[4]?
        = some (CellValue.str ("N/A")) := by
  refine ⟨by decide, ?_⟩
  have h := (missing_value_rendering ["FY2023"]
      { c3Item with values := [("FY2023", none)] } 0 (by decide)).1 (by decide)
  simpa using h

-- ─── Theorem: C9 ────────────────────────────────────────────────────────────

/-- C9: the Raw Data sheet has one row per line item, and the second cell
of row `i` (the original-label column) is exactly the input `label` string
of line item `i`, unmodified. -/
theorem raw_label_verbatim (data : FinancialExtractionResult) (i : Nat)
    (h : i < data.lineItems.length) :
    rawRows data = data.lineItems.map (rawRowCells data.periods)
    ∧ ((rawRows data)[i]?.bind fun row => row[1]?)
        = some (CellValue.str data.lineItems[i].label) := by
  refine ⟨rfl, ?_⟩
  rw [rawRows, List.getElem?_map, List.getElem?_eq_getElem h]
  rfl

/-- A small concrete extraction result used by witnesses. -/
def exResult : FinancialExtractionResult :=
  { companyName := "Acme"
    reportType := "10-K"
    documentTitle := ""
    periods := ["FY2023"]
    currency := "USD"
    unit := "millions"
    lineItems := [c3Item]
    extractionNotes := "" }

theorem raw_label_verbatim_witness :
    0 < exResult.lineItems.length
    ∧ ((rawRows exResult)[0]?.bind fun row => row[1]?)
        = some (CellValue.str ("Revenue")) := by
  refine ⟨by decide, ?_⟩
  have h := (raw_label_verbatim exResult 0 (by decide)).2
  simpa using h

-- ─── src/lib/excel-generator.ts: Sheet 1 layout constants ───────────────────

/-- The constant `const totalCols = 2 + data.periods.length + (data.periods.length - 1)
+ 1 + 1` (`addIncomeStatementSheet`), over JavaScript number arithmetic
(hence `Int`, not truncated `Nat` subtraction). -/
def totalCols (data : FinancialExtractionResult) : Int :=
  2 + (data.periods.length : Int) + ((data.periods.length : Int) - 1) + 1 + 1

/-- The constant `const confColIdx = 3 + data.periods.length + (data.periods.length - 1)`
(`addIncomeStatementSheet`). -/
def confColIdx (data : FinancialExtractionResult) : Int :=
  3 + (data.periods.length : Int) + ((data.periods.length : Int) - 1)

/-- The period column-header text:
`` `${data.periods[i]}\n(${currSymbol} ${data.unit})` ``. -/
def periodHeaderText (data : FinancialExtractionResult) (p : String) : String :=
  p ++ "\n(" ++ getCurrencySymbol data.currency ++ " " ++ data.unit ++ ")"

/-- The `setHeader` calls of `addIncomeStatementSheet` in order:
(column index, header text) for the two leading columns, one per period,
one per adjacent period pair (the year-over-year growth columns), then the
Confidence and Notes columns. -/
def incomeHeaders (data : FinancialExtractionResult) : List (Int × String) :=
  [((1 : Int), "Category"), ((2 : Int), "Line Item")]
  ++ data.periods.enum.map
      (fun ip => ((3 + ip.1 : Int), periodHeaderText data ip.2))
  ++ (data.periods.zip data.periods.tail).enum.map
      (fun ip => (((3 : Int) + data.periods.length + ip.1),
        "YoY\n" ++ ip.2.1 ++ "/" ++ ip.2.2))
  ++ [(confColIdx data, "Confidence"), (confColIdx data + 1, "Notes")]

-- ─── src/lib/excel-generator.ts: Sheet 1 data region ────────────────────────

/-- A row of the Sheet 1 data region: either a category banner row (the
merged row showing the uppercased category on its category color), or the
data row of one line item. -/
inductive SheetRow where
  | banner (category : String)
  | itemRow (item : FinancialLineItem)
  deriving DecidableEq

/-- The data-row loop of `addIncomeStatementSheet` with its `lastCategory`
accumulator (initially `''`): a banner row is emitted exactly when
`item.category !== lastCategory`, followed by the item's own data row. -/
def buildRows : List FinancialLineItem → String → List SheetRow
  | [], _ => []
  | item :: rest, lastCategory =>
    if catStr item.category ≠ lastCategory then
      SheetRow.banner (catStr item.category)
        :: SheetRow.itemRow item :: buildRows rest (catStr item.category)
    else
      SheetRow.itemRow item :: buildRows rest lastCategory

/-- The full Sheet 1 data region of a result. -/
def incomeDataRegion (data : FinancialExtractionResult) : List SheetRow :=
  buildRows data.lineItems ("")

/-- The category strings of the banner rows, in order. -/
def bannersOf (rows : List SheetRow) : List String :=
  rows.filterMap fun r =>
    match r with
    | .banner c => some c
    | .itemRow _ => none

/-- A maximal run of consecutive line items sharing one category. -/
structure Run where
  head : FinancialLineItem
  tail : List FinancialLineItem
  deriving DecidableEq

/-- The items of a run, in order. -/
def Run.items (r : Run) : List FinancialLineItem := r.head :: r.tail

/-- The category of a run. -/
def Run.category (r : Run) : LineItemCategory := r.head.category

/-- All items of a run share its category. -/
def Run.Uniform (r : Run) : Prop :=
  ∀ it ∈ r.tail, it.category = r.head.category

instance Run.instDecidableUniform (r : Run) : Decidable r.Uniform :=
  inferInstanceAs (Decidable (∀ it ∈ r.tail, it.category = r.head.category))

/-- Predicate stating that `rs` decomposes `items` into nonempty uniform runs with pairwise
distinct categories; this is exactly the hypothesis that all line items of
each category are contiguous. -/
def RunDecomp (rs : List Run) (items : List FinancialLineItem) : Prop :=
  items = (rs.map Run.items).flatten
  ∧ (∀ r ∈ rs, r.Uniform)
  ∧ (rs.map Run.category).Nodup

theorem catStr_injective : Function.Injective catStr := by decide

theorem catStr_ne_empty (c : LineItemCategory) : catStr c ≠ "" := by
  revert c; decide

/-- Items whose category string equals the accumulator produce no banner. -/
theorem buildRows_uniform_tail (rest : List FinancialLineItem) (c : String)
    (tl : List FinancialLineItem) (h : ∀ it ∈ tl, catStr it.category = c) :
    buildRows (tl ++ rest) c = tl.map SheetRow.itemRow ++ buildRows rest c := by
  induction tl with
  | nil => simp
  | cons x xs ih =>
    have hx : catStr x.category = c := h x (by simp)
    simp [buildRows, hx, ih fun it hit => h it (List.mem_cons_of_mem x hit)]

/-- On a run decomposition, the data-row loop produces exactly one banner
block per run. -/
theorem buildRows_runs (rs : List Run) :
    ∀ prev, (∀ r ∈ rs, r.Uniform) → (rs.map Run.category).Nodup →
    (∀ r ∈ rs, catStr r.category ≠ prev) →
    buildRows (rs.map Run.items).flatten prev
      = (rs.map fun r =>
          SheetRow.banner (catStr r.category)
            :: r.items.map SheetRow.itemRow).flatten := by
  induction rs with
  | nil => intro prev _ _ _; rfl
  | cons r rs ih =>
    intro prev hu hnd hprev
    have hr : ¬catStr r.head.category = prev := hprev r (by simp)
    have hru : r.Uniform := hu r (by simp)
    simp only [List.map_cons, List.flatten_cons]
    rw [show Run.items r = r.head :: r.tail from rfl, List.cons_append]
    rw [show buildRows (r.head :: (r.tail ++ (rs.map Run.items).flatten)) prev
        = SheetRow.banner (catStr r.head.category)
          :: SheetRow.itemRow r.head
          :: buildRows (r.tail ++ (rs.map Run.items).flatten)
              (catStr r.head.category) from by
      simp [buildRows, hr]]
    rw [buildRows_uniform_tail _ _ r.tail
      (fun it hit => congrArg catStr (hru it hit))]
    rw [ih (catStr r.head.category)
      (fun r2 h2 => hu r2 (List.mem_cons_of_mem r h2))
      (List.nodup_cons.mp hnd).2
      (fun r2 h2 he => (List.nodup_cons.mp hnd).1 (by
        have h3 : r2.category = Run.category r := catStr_injective he
        exact h3 ▸ List.mem_map_of_mem Run.category h2))]
    simp [Run.category]

/-- Collecting the banners of the canonical banner-block form gives the run
categories. -/
theorem bannersOf_blocks (rs : List Run) :
    bannersOf ((rs.map fun r =>
        SheetRow.banner (catStr r.category)
          :: r.items.map SheetRow.itemRow).flatten)
      = rs.map fun r => catStr r.category := by
  induction rs with
  | nil => rfl
  | cons r rs ih =>
    simp only [List.map_cons, List.flatten_cons, bannersOf,
      List.filterMap_append, List.filterMap_cons, List.filterMap_map] at *
    simp [Function.comp_def, ih]

/-- Helper: `List.find?` skips a block on which the predicate is everywhere
false. -/
theorem find?_append_of_none {α : Type} (p : α → Bool) (l1 l2 : List α)
    (h : ∀ x ∈ l1, p x = false) :
    List.find? p (l1 ++ l2) = List.find? p l2 := by
  induction l1 with
  | nil => rfl
  | cons a l ih =>
    have ha := h a (by simp)
    rw [List.cons_append]
    simp only [List.find?, ha]
    exact ih fun x hx => h x (by simp [hx])

/-- On a run decomposition, each run's head is the first item of its
category in the whole item list. -/
theorem find_head_of_runs (rs : List Run) :
    (∀ r ∈ rs, r.Uniform) → (rs.map Run.category).Nodup →
    ∀ r ∈ rs, ((rs.map Run.items).flatten).find?
        (fun x => decide (catStr x.category = catStr r.category))
      = some r.head := by
  induction rs with
  | nil => intro _ _ r hr; simp at hr
  | cons r0 rs ih =>
    intro hu hnd r hr
    simp only [List.map_cons, List.flatten_cons]
    rcases List.mem_cons.mp hr with rfl | hr2
    · rw [show Run.items r = r.head :: r.tail from rfl, List.cons_append]
      rw [List.find?_cons_of_pos _ (by simp [Run.category])]
    · have hne : r0.category ≠ r.category := by
        intro he
        exact (List.nodup_cons.mp hnd).1
          (he ▸ List.mem_map_of_mem Run.category hr2)
      have hskip : ∀ x ∈ Run.items r0,
          (fun x => decide (catStr x.category = catStr r.category)) x
            = false := by
        intro x hx
        have hxcat : x.category = r0.category := by
          rcases List.mem_cons.mp hx with rfl | hx2
          · rfl
          · exact hu r0 (by simp) x hx2
        simp only [decide_eq_false_iff_not]
        intro hc
        exact hne ((catStr_injective (hxcat ▸ hc)))
      rw [find?_append_of_none _ _ _ hskip]
      exact ih (fun r2 h2 => hu r2 (List.mem_cons_of_mem r0 h2))
        (List.nodup_cons.mp hnd).2 r hr2

/-- The categories appearing in the runs are the categories appearing in
the items. -/
theorem runDecomp_mem_categories (rs : List Run)
    (items : List FinancialLineItem) (h : RunDecomp rs items) (c : String) :
    (c ∈ rs.map fun r => catStr r.category)
      ↔ c ∈ items.map fun it => catStr it.category := by
  obtain ⟨hitems, hu, -⟩ := h
  subst hitems
  simp only [List.mem_map, List.mem_flatten]
  constructor
  · rintro ⟨r, hr, rfl⟩
    exact ⟨r.head, ⟨r.items, ⟨r, hr, rfl⟩, by simp [Run.items]⟩, rfl⟩
  · rintro ⟨it, ⟨l, ⟨r, hr, rfl⟩, hitl⟩, rfl⟩
    refine ⟨r, hr, ?_⟩
    rcases List.mem_cons.mp hitl with rfl | h2
    · rfl
    · exact congrArg catStr (hu r hr it h2).symm

-- ─── Theorem: C4 ────────────────────────────────────────────────────────────

/-- C4: when the line items of each category are contiguous (witnessed by a
run decomposition), the Sheet 1 data region is exactly one banner block per
run: one banner per distinct category, placed immediately before that
category's first item, in order of first occurrence, with no banner
repeated; the banner row merge spans all columns. -/
theorem income_banner_spec (data : FinancialExtractionResult) (rs : List Run)
    (h : RunDecomp rs data.lineItems) :
    incomeDataRegion data
      = (rs.map fun r =>
          SheetRow.banner (catStr r.category)
            :: r.items.map SheetRow.itemRow).flatten
    ∧ bannersOf (incomeDataRegion data) = rs.map (fun r => catStr r.category)
    ∧ (bannersOf (incomeDataRegion data)).Nodup
    ∧ (∀ c, c ∈ bannersOf (incomeDataRegion data)
        ↔ c ∈ data.lineItems.map (fun it => catStr it.category))
    ∧ (∀ r ∈ rs, data.lineItems.find?
        (fun x => decide (catStr x.category = catStr r.category))
        = some r.head)
    ∧ confColIdx data + 1 = totalCols data := by
  obtain ⟨hitems, hu, hnd⟩ := h
  have hregion : incomeDataRegion data
      = (rs.map fun r =>
          SheetRow.banner (catStr r.category)
            :: r.items.map SheetRow.itemRow).flatten := by
    rw [incomeDataRegion, hitems]
    exact buildRows_runs rs ("") hu hnd fun r _ => catStr_ne_empty r.category
  have hbanners : bannersOf (incomeDataRegion data)
      = rs.map (fun r => catStr r.category) := by
    rw [hregion]; exact bannersOf_blocks rs
  refine ⟨hregion, hbanners, ?_, ?_, ?_, ?_⟩
  · rw [hbanners]
    rw [show (rs.map (fun r => catStr r.category))
        = (rs.map Run.category).map catStr by
      simp [List.map_map, Function.comp_def, Run.category]]
    exact hnd.map catStr_injective
  · intro c
    rw [hbanners]
    exact runDecomp_mem_categories rs data.lineItems ⟨hitems, hu, hnd⟩ c
  · intro r hr
    rw [hitems]
    exact find_head_of_runs rs hu hnd r hr
  · simp only [confColIdx, totalCols]
    omega

/-- Three line items forming two contiguous category runs. -/
def exItemRev2 : FinancialLineItem :=
  { c3Item with
    label := "Product revenue"
    standardLabel := "Product Revenue" }

def exItemCost : FinancialLineItem :=
  { c3Item with
    label := "COGS"
    standardLabel := "Cost of Goods Sold"
    category := .cost }

def exRuns : List Run := [⟨c3Item, [exItemRev2]⟩, ⟨exItemCost, []⟩]

def exData4 : FinancialExtractionResult :=
  { exResult with lineItems := [c3Item, exItemRev2, exItemCost] }

theorem income_banner_spec_witness :
    RunDecomp exRuns exData4.lineItems
    ∧ (bannersOf (incomeDataRegion exData4)).Nodup := by
  have hd : RunDecomp exRuns exData4.lineItems :=
    ⟨by decide, by decide, by decide⟩
  exact ⟨hd, (income_banner_spec exData4 exRuns hd).2.2.1⟩

-- ─── Theorem: C6 ────────────────────────────────────────────────────────────

/-- C6: with exactly one period, Sheet 1 emits zero year-over-year growth
columns and has total column count 2 + 1 + 0 + 2 = 5, its headers being
exactly Category, Line Item, the single period value column, Confidence,
and Notes. -/
theorem single_period_layout (data : FinancialExtractionResult)
    (h : data.periods.length = 1) :
    totalCols data = 5
    ∧ incomeHeaders data =
        [(1, "Category"), (2, "Line Item"),
         (3, periodHeaderText data (data.periods.headD (""))),
         (4, "Confidence"), (5, "Notes")]
    ∧ ∀ item : FinancialLineItem,
        (data.periods.zip data.periods.tail).map
          (fun pp => growthCell item pp.1 pp.2) = [] := by
  obtain ⟨p, hp⟩ := List.length_eq_one.mp h
  refine ⟨?_, ?_, ?_⟩
  · simp only [totalCols, h]
    norm_num
  · simp [incomeHeaders, hp, confColIdx, List.enum, List.enumFrom,
      periodHeaderText]
  · intro item
    simp [hp]

theorem single_period_layout_witness :
    exResult.periods.length = 1 ∧ totalCols exResult = 5 :=
  ⟨rfl, (single_period_layout exResult rfl).1⟩

-- ─── src/app/api/download-excel/route.ts ────────────────────────────────────

/-- The JSON request body as the route sees it after `req.json()`: each
field of `FinancialExtractionResult` may be absent. `none` models both a
missing key and JSON `null`, which behave identically in every test the
route and the generator perform on these fields. -/
structure RequestBody where
  companyName : Option String
  reportType : Option String
  documentTitle : Option String
  periods : Option (List String)
  currency : Option String
  unit : Option String
  lineItems : Option (List FinancialLineItem)
  extractionNotes : Option String
  deriving DecidableEq

/-- JavaScript truthiness of a possibly-absent string field: absent (or
null) and the empty string are falsy. -/
def truthyStr : Option String → Bool
  | none => false
  | some s => decide (s ≠ "")

/-- The route's validation test `!data || !data.companyName ||
!data.lineItems` restricted to the field tests (an array value is always
truthy, in particular `[]`). -/
def validBody (data : RequestBody) : Bool :=
  truthyStr data.companyName && data.lineItems.isSome

/-- Whether `generateFinancialExcel` throws on this body: building the
sheets dereferences `data.periods` (`data.periods.length`, the header
loops) and iterates `data.lineItems`, so either being `undefined` throws a
`TypeError`; every other absent field is only interpolated into strings
(rendering as "undefined") or read behind an optional chain, and does not
throw. -/
def generateThrows (data : RequestBody) : Bool :=
  data.periods.isNone || data.lineItems.isNone

/-- The HTTP status returned by `POST /api/download-excel` on a parsed
JSON body (`none` models a body whose JSON value is falsy, e.g. `null`):
400 from the validation guard, 500 from the catch-all when the generator
throws, 200 otherwise. -/
def postDownloadExcel : Option RequestBody → Nat
  | none => 400
  | some data =>
    if validBody data then
      if generateThrows data then 500 else 200
    else 400

-- ─── Theorems: C7, C10 ──────────────────────────────────────────────────────

/-- A body with truthy `companyName` and `lineItems` but no `periods`
field. -/
def c7Body : RequestBody :=
  { companyName := some ("Acme")
    reportType := none
    documentTitle := none
    periods := none
    currency := none
    unit := none
    lineItems := some []
    extractionNotes := none }

/-- C7 counterexample: a body missing the required `periods` field is not
rejected with a 4xx status — validation passes and the rendering failure
surfaces as a 500 response. -/
theorem post_missing_field_counterexample :
    c7Body.periods = none
    ∧ postDownloadExcel (some c7Body) = 500
    ∧ ¬(400 ≤ postDownloadExcel (some c7Body)
        ∧ postDownloadExcel (some c7Body) < 500) := by
  decide

/-- C7 (amended): the route rejects with 400, before any rendering, the
bodies that are falsy or have a falsy `companyName` or a missing
`lineItems`; a body passing that check but missing `periods` is not
pre-validated — rendering throws and the catch-all returns a structured
500 error response, not a 4xx; with `periods` present rendering completes
with 200. -/
theorem post_validation_spec (data : RequestBody) :
    (truthyStr data.companyName = false ∨ data.lineItems = none →
        postDownloadExcel (some data) = 400)
    ∧ postDownloadExcel none = 400
    ∧ (validBody data = true → data.periods = none →
        postDownloadExcel (some data) = 500)
    ∧ (validBody data = true → data.periods.isSome = true →
        postDownloadExcel (some data) = 200) := by
  refine ⟨?_, rfl, ?_, ?_⟩
  · rintro (h | h) <;> simp [postDownloadExcel, validBody, h]
  · intro hv hp
    simp [postDownloadExcel, hv, generateThrows, hp]
  · intro hv hp
    have hpn : data.periods.isNone = false := by
      cases hq : data.periods <;> simp_all
    have hln : data.lineItems.isNone = false := by
      have := hv
      simp only [validBody, Bool.and_eq_true] at this
      cases hq : data.lineItems <;> simp_all
    simp [postDownloadExcel, hv, generateThrows, hpn, hln]

theorem post_validation_spec_witness :
    postDownloadExcel (some { c7Body with companyName := none }) = 400
    ∧ postDownloadExcel (some c7Body) = 500
    ∧ postDownloadExcel (some { c7Body with periods := some ["FY2023"] })
        = 200 := by
  refine ⟨?_, ?_, ?_⟩
  · exact (post_validation_spec _).1 (Or.inl (by decide))
  · exact (post_validation_spec c7Body).2.2.1 (by decide) rfl
  · exact (post_validation_spec _).2.2.2 (by decide) (by decide)

/-- C10: a body whose `companyName` is present but empty is rejected with
400 exactly as if the field were absent, while an empty `lineItems` array
is truthy, passes the validation, and the request proceeds to rendering. -/
theorem empty_company_validation (data : RequestBody) :
    (data.companyName = some ("") →
        validBody data = false ∧ postDownloadExcel (some data) = 400)
    ∧ (data.lineItems = some [] → truthyStr data.companyName = true →
        validBody data = true ∧ postDownloadExcel (some data) ≠ 400) := by
  constructor
  · intro h
    have hv : validBody data = false := by simp [validBody, truthyStr, h]
    exact ⟨hv, by simp [postDownloadExcel, hv]⟩
  · intro hl hc
    have hv : validBody data = true := by simp [validBody, hc, hl]
    refine ⟨hv, ?_⟩
    simp only [postDownloadExcel, hv, if_true]
    cases hg : generateThrows data <;> simp [hg]

theorem empty_company_validation_witness :
    postDownloadExcel (some { c7Body with companyName := some ("") }) = 400
    ∧ validBody c7Body = true
    ∧ postDownloadExcel (some c7Body) ≠ 400 := by
  refine ⟨?_, ?_⟩
  · exact ((empty_company_validation _).1 rfl).2
  · exact (empty_company_validation c7Body).2 rfl (by decide)

end ResearchPortal
